import Mathlib

/-!
Verification of the Scene Stitcher core: the Layout Canvas
(viewport transform, zoom, fit-all, drag interaction, snap engine) from
`scene-stitcher/scripts/canvas-layout.mjs`, and the Merge Engine
(bounding-box normalization, per-type offset rules, document assembly,
persistence loop) from the merge-engine module.

All machine numbers of the source (JS doubles) are modelled as exact
rationals; the properties proved here hold exactly over ℚ, matching the
spec's "exact over exact arithmetic" reading.
-/

namespace SceneStitcher

/-- `MIN_ZOOM` constant of canvas-layout.mjs. -/
def MIN_ZOOM : ℚ := 1/10

/-- `MAX_ZOOM` constant of canvas-layout.mjs. -/
def MAX_ZOOM : ℚ := 4

/-- `ZOOM_STEP` constant of canvas-layout.mjs. -/
def ZOOM_STEP : ℚ := 1/10

/-- `SNAP_THRESHOLD` constant of canvas-layout.mjs (canvas pixels). -/
def SNAP_THRESHOLD : ℚ := 12

/-- A placed scene rectangle (`SceneEntry` of canvas-layout.mjs); the
image/thumbnail fields are irrelevant to the geometry and omitted. -/
structure SceneEntry where
  sceneId : String
  name : String
  width : ℚ
  height : ℚ
  x : ℚ
  y : ℚ
deriving DecidableEq, Inhabited, Repr

/-- Axis of a snap guide (`axis: 'x'|'y'` in the source). -/
inductive Axis where
  | x
  | y
deriving DecidableEq, Inhabited, Repr

/-- A snap guide `{ axis, value }`. -/
structure SnapGuide where
  axis : Axis
  value : ℚ
deriving DecidableEq, Inhabited, Repr

/-- The `_dragging` record `{ index, startX, startY, origX, origY }`. -/
structure DragState where
  index : ℕ
  startX : ℚ
  startY : ℚ
  origX : ℚ
  origY : ℚ
deriving DecidableEq, Inhabited, Repr

/-- State of a `LayoutCanvas` instance: canvas dimensions, placed scenes,
viewport `(zoom, panX, panY)`, snap flags, interaction state, current snap
guides, and a counter of `onLayoutChange()` callback firings (the only
callback surface to the host). -/
structure CanvasState where
  canvasW : ℚ
  canvasH : ℚ
  scenes : List SceneEntry
  zoom : ℚ
  panX : ℚ
  panY : ℚ
  snapX : Bool
  snapY : Bool
  dragging : Option DragState
  panning : Bool
  snapGuides : List SnapGuide
  layoutChangeCount : ℕ
deriving DecidableEq, Inhabited, Repr

/-- `_canvasToScene(cx, cy)`: canvas pixel → scene-pixel space. -/
def canvasToScene (s : CanvasState) (cx cy : ℚ) : ℚ × ℚ :=
  ((cx - s.panX) / s.zoom, (cy - s.panY) / s.zoom)

/-- `_sceneToCanvas(sx, sy)`: scene-pixel → canvas pixel space. -/
def sceneToCanvas (s : CanvasState) (sx sy : ℚ) : ℚ × ℚ :=
  (sx * s.zoom + s.panX, sy * s.zoom + s.panY)

/-- `_setZoom(newZoom, canvasX, canvasY)`: clamp the zoom to
`[MIN_ZOOM, MAX_ZOOM]`, recompute the pan so the given canvas point is a
fixed point of the zoom change, re-render (a no-op here) and fire
`onLayoutChange()` (modelled by incrementing `layoutChangeCount`). -/
def setZoomOp (s : CanvasState) (newZoom canvasX canvasY : ℚ) : CanvasState :=
  let clampedZoom := max MIN_ZOOM (min MAX_ZOOM newZoom)
  let r := clampedZoom / s.zoom
  { s with
    panX := canvasX - (canvasX - s.panX) * r
    panY := canvasY - (canvasY - s.panY) * r
    zoom := clampedZoom
    layoutChangeCount := s.layoutChangeCount + 1 }

/-- Fold of `Math.min` over the `x` fields, as in `fitAll`'s bounding-box
loop.  The source starts the fold from `Infinity`; over a non-empty list
that equals folding from the first element, which is how the infinite
initial value is rendered in ℚ (the source only reaches the fold with a
non-empty list). -/
def scenesMinX : List SceneEntry → ℚ
  | [] => 0
  | e :: rest => rest.foldl (fun m s => min m s.x) e.x

/-- Fold of `Math.min` over the `y` fields of `fitAll`'s loop. -/
def scenesMinY : List SceneEntry → ℚ
  | [] => 0
  | e :: rest => rest.foldl (fun m s => min m s.y) e.y

/-- Fold of `Math.max` over `x + width` of `fitAll`'s loop. -/
def scenesMaxX : List SceneEntry → ℚ
  | [] => 0
  | e :: rest => rest.foldl (fun m s => max m (s.x + s.width)) (e.x + e.width)

/-- Fold of `Math.max` over `y + height` of `fitAll`'s loop. -/
def scenesMaxY : List SceneEntry → ℚ
  | [] => 0
  | e :: rest => rest.foldl (fun m s => max m (s.y + s.height)) (e.y + e.height)

/-- `fitAll()`: no-op on an empty scene list; otherwise compute the content
bounding box, set `zoom = max(MIN_ZOOM, min(scaleX, scaleY, MAX_ZOOM))` and
centre the pan on the bounding-box centre, then re-render.  Note: the
source ends with `this.render()` only — it does not call
`onLayoutChange()`, so `layoutChangeCount` is unchanged. -/
def fitAllOp (s : CanvasState) : CanvasState :=
  match s.scenes with
  | [] => s
  | e :: rest =>
    let minX := scenesMinX (e :: rest)
    let minY := scenesMinY (e :: rest)
    let maxX := scenesMaxX (e :: rest)
    let maxY := scenesMaxY (e :: rest)
    let contentWidth := maxX - minX
    let contentHeight := maxY - minY
    let padding : ℚ := 40
    let scaleX := (s.canvasW - padding * 2) / contentWidth
    let scaleY := (s.canvasH - padding * 2) / contentHeight
    let z0 := min (min scaleX scaleY) MAX_ZOOM
    let z := max z0 MIN_ZOOM
    { s with
      zoom := z
      panX := s.canvasW / 2 - (minX + contentWidth / 2) * z
      panY := s.canvasH / 2 - (minY + contentHeight / 2) * z }

/-- `_handlePointerUp(e)`: if a drag is active, clear the snap guides, end
the drag, re-render and fire `onLayoutChange()`; then, if panning, stop
panning (no callback on pan end). -/
def pointerUpOp (s : CanvasState) : CanvasState :=
  let s1 :=
    if s.dragging.isSome then
      { s with snapGuides := [], dragging := none,
               layoutChangeCount := s.layoutChangeCount + 1 }
    else s
  if s1.panning then { s1 with panning := false } else s1

/-- Accumulator threaded through `_computeSnap`'s loop: the current
`snappedX`, `snappedY` and the `guides` array. -/
structure SnapAcc where
  sx : ℚ
  sy : ℚ
  guides : List SnapGuide
deriving DecidableEq, Inhabited, Repr

/-- The four X-axis edge-alignment cases of `_computeSnap` for one static
rectangle `other`, in source order: left→other-right, right→other-left,
left→left, right→right.  Each case that matches overwrites `snappedX` and
pushes a guide. -/
def snapStepX (threshold dLeft dRight dw : ℚ) (other : SceneEntry)
    (acc : SnapAcc) : SnapAcc :=
  let oLeft := other.x
  let oRight := other.x + other.width
  let a1 :=
    if |dLeft - oRight| < threshold then
      { acc with sx := oRight, guides := acc.guides ++ [⟨Axis.x, oRight⟩] }
    else acc
  let a2 :=
    if |dRight - oLeft| < threshold then
      { a1 with sx := oLeft - dw, guides := a1.guides ++ [⟨Axis.x, oLeft⟩] }
    else a1
  let a3 :=
    if |dLeft - oLeft| < threshold then
      { a2 with sx := oLeft, guides := a2.guides ++ [⟨Axis.x, oLeft⟩] }
    else a2
  if |dRight - oRight| < threshold then
    { a3 with sx := oRight - dw, guides := a3.guides ++ [⟨Axis.x, oRight⟩] }
  else a3

/-- The four Y-axis edge-alignment cases of `_computeSnap` for one static
rectangle `other`, in source order: top→other-bottom, bottom→other-top,
top→top, bottom→bottom. -/
def snapStepY (threshold dTop dBottom dh : ℚ) (other : SceneEntry)
    (acc : SnapAcc) : SnapAcc :=
  let oTop := other.y
  let oBottom := other.y + other.height
  let a1 :=
    if |dTop - oBottom| < threshold then
      { acc with sy := oBottom, guides := acc.guides ++ [⟨Axis.y, oBottom⟩] }
    else acc
  let a2 :=
    if |dBottom - oTop| < threshold then
      { a1 with sy := oTop - dh, guides := a1.guides ++ [⟨Axis.y, oTop⟩] }
    else a1
  let a3 :=
    if |dTop - oTop| < threshold then
      { a2 with sy := oTop, guides := a2.guides ++ [⟨Axis.y, oTop⟩] }
    else a2
  if |dBottom - oBottom| < threshold then
    { a3 with sy := oBottom - dh, guides := a3.guides ++ [⟨Axis.y, oBottom⟩] }
  else a3

/-- One iteration of `_computeSnap`'s loop body for a non-dragged rectangle:
X-axis cases when `snapX` is enabled, then Y-axis cases when `snapY` is. -/
def snapStep (snapX snapY : Bool) (threshold dLeft dRight dTop dBottom dw dh : ℚ)
    (other : SceneEntry) (acc : SnapAcc) : SnapAcc :=
  let accX := if snapX then snapStepX threshold dLeft dRight dw other acc else acc
  if snapY then snapStepY threshold dTop dBottom dh other accX else accX

/-- One indexed iteration of `_computeSnap`'s loop: the rectangle at
`dragIndex` is skipped (`continue`), every other one runs `snapStep`. -/
def computeSnapIter (snapX snapY : Bool) (dragIndex : ℕ)
    (threshold dLeft dRight dTop dBottom dw dh : ℚ)
    (acc : SnapAcc) (p : ℕ × SceneEntry) : SnapAcc :=
  if p.1 = dragIndex then acc
  else snapStep snapX snapY threshold dLeft dRight dTop dBottom dw dh p.2 acc

/-- `_computeSnap(dragIndex, newX, newY, shiftHeld)`.  If shift is held or
both snap axes are off, the input position is returned with no guides.
Otherwise the loop runs over all scenes in index order, skipping
`dragIndex`, with threshold `SNAP_THRESHOLD / zoom`.  The source indexes
`this.scenes[dragIndex]` unconditionally; the embedding uses `getD` with
the default entry, and is only invoked at valid indices. -/
def computeSnap (s : CanvasState) (dragIndex : ℕ) (newX newY : ℚ)
    (shiftHeld : Bool) : SnapAcc :=
  if shiftHeld || (!s.snapX && !s.snapY) then ⟨newX, newY, []⟩
  else
    let dragged := s.scenes.getD dragIndex default
    let dw := dragged.width
    let dh := dragged.height
    let dLeft := newX
    let dRight := newX + dw
    let dTop := newY
    let dBottom := newY + dh
    let threshold := SNAP_THRESHOLD / s.zoom
    s.scenes.enum.foldl
      (computeSnapIter s.snapX s.snapY dragIndex threshold dLeft dRight dTop dBottom dw dh)
      ⟨newX, newY, []⟩

/-- The `dragged.width` of `_computeSnap` (`dw`). -/
def dragWidth (s : CanvasState) (dragIndex : ℕ) : ℚ :=
  (s.scenes.getD dragIndex default).width

/-- The `dragged.height` of `_computeSnap` (`dh`). -/
def dragHeight (s : CanvasState) (dragIndex : ℕ) : ℚ :=
  (s.scenes.getD dragIndex default).height

/-- The world-space snap threshold `SNAP_THRESHOLD / zoom` of
`_computeSnap`. -/
def snapThr (s : CanvasState) : ℚ := SNAP_THRESHOLD / s.zoom

/-- Specification-side predicate: some X edge-alignment case for `other`
matches, i.e. the absolute distance between the corresponding pair of
edges is strictly below the (zoom-scaled) threshold. -/
def qualifiesX (threshold dLeft dRight : ℚ) (other : SceneEntry) : Prop :=
  |dLeft - (other.x + other.width)| < threshold ∨
  |dRight - other.x| < threshold ∨
  |dLeft - other.x| < threshold ∨
  |dRight - (other.x + other.width)| < threshold

instance (threshold dLeft dRight : ℚ) (other : SceneEntry) :
    Decidable (qualifiesX threshold dLeft dRight other) := by
  unfold qualifiesX; infer_instance

/-- Specification-side predicate: some Y edge-alignment case for `other`
matches. -/
def qualifiesY (threshold dTop dBottom : ℚ) (other : SceneEntry) : Prop :=
  |dTop - (other.y + other.height)| < threshold ∨
  |dBottom - other.y| < threshold ∨
  |dTop - other.y| < threshold ∨
  |dBottom - (other.y + other.height)| < threshold

instance (threshold dTop dBottom : ℚ) (other : SceneEntry) :
    Decidable (qualifiesY threshold dTop dBottom other) := by
  unfold qualifiesY; infer_instance

/-- The corrected X coordinate contributed by candidate `other` when it
qualifies: the value written by the **last** matching case in source
order (right→right, else left→left, else right→other-left, else
left→other-right). -/
def xSnapValue (threshold dLeft dRight dw : ℚ) (other : SceneEntry) : ℚ :=
  if |dRight - (other.x + other.width)| < threshold then other.x + other.width - dw
  else if |dLeft - other.x| < threshold then other.x
  else if |dRight - other.x| < threshold then other.x - dw
  else other.x + other.width

/-- The corrected Y coordinate contributed by candidate `other` when it
qualifies: the value written by the last matching case in source order. -/
def ySnapValue (threshold dTop dBottom dh : ℚ) (other : SceneEntry) : ℚ :=
  if |dBottom - (other.y + other.height)| < threshold then other.y + other.height - dh
  else if |dTop - other.y| < threshold then other.y
  else if |dBottom - other.y| < threshold then other.y - dh
  else other.y + other.height

/-! ## Merge Engine (merge-engine module) -/

/-- One shape inside a Region document's `shapes` array: an optional flat
interleaved point list and optional `x`/`y` anchor fields; `rest` stands
for the remaining fields carried along verbatim by `deepClone`. -/
structure RegionShape where
  points : Option (List ℚ)
  x : Option ℚ
  y : Option ℚ
  rest : String
deriving DecidableEq, Inhabited, Repr

/-- The provenance tag written into `flags["scene-stitcher"]`. -/
structure StitcherTag where
  sourceSceneId : String
  sourceSceneName : String
deriving DecidableEq, Inhabited, Repr

/-- A plain embedded-document data object, modelling the dynamic JS object
`doc.toObject()` by the fields the merge engine reads or writes: the
`_id` (as `idF`), the wall endpoint array `c : [x1,y1,x2,y2]`, the `x`/`y`
anchor, the drawing's `shape.points`, the region's `shapes`, the
provenance tag, and `rest` for every other field (carried unchanged). -/
structure DocData where
  idF : Option String
  c : Option (ℚ × ℚ × ℚ × ℚ)
  x : Option ℚ
  y : Option ℚ
  shapePoints : Option (List ℚ)
  shapes : Option (List RegionShape)
  tag : Option StitcherTag
  rest : String
deriving DecidableEq, Inhabited, Repr

/-- Wall `offsetFn`: `if (data.c) data.c = [c0+dx, c1+dy, c2+dx, c3+dy]`. -/
def wallOffsetFn (d : DocData) (dx dy : ℚ) : DocData :=
  match d.c with
  | some (x1, y1, x2, y2) => { d with c := some (x1 + dx, y1 + dy, x2 + dx, y2 + dy) }
  | none => d

/-- The shared point-anchored `offsetFn` (lights, sounds, tokens, tiles,
notes, templates): `data.x = (data.x ?? 0) + dx; data.y = (data.y ?? 0) + dy`. -/
def xyOffsetFn (d : DocData) (dx dy : ℚ) : DocData :=
  { d with x := some (d.x.getD 0 + dx), y := some (d.y.getD 0 + dy) }

/-- Drawing `offsetFn`: translate the `x`/`y` anchor; when
`shape.points` is a non-empty list, map it with the identity per-point
function of the source (`i % 2 === 0 ? pt : pt`) — the points are
anchor-relative and are left unchanged. -/
def drawingOffsetFn (d : DocData) (dx dy : ℚ) : DocData :=
  let d1 := xyOffsetFn d dx dy
  match d1.shapePoints with
  | some pts =>
    if pts.length ≠ 0 then
      { d1 with shapePoints := some (pts.enum.map (fun p => if p.1 % 2 = 0 then p.2 else p.2)) }
    else d1
  | none => d1

/-- Per-shape transform inside the Region `offsetFn`: even-indexed points
get `+dx`, odd-indexed `+dy`; the `x`/`y` fields are translated when
defined. -/
def regionShapeOffsetFn (dx dy : ℚ) (sh : RegionShape) : RegionShape :=
  let s1 :=
    match sh.points with
    | some pts =>
      if pts.length ≠ 0 then
        { sh with points := some (pts.enum.map (fun (p : ℕ × ℚ) => if p.1 % 2 = 0 then p.2 + dx else p.2 + dy)) }
      else sh
    | none => sh
  let s2 :=
    match s1.x with
    | some xv => { s1 with x := some (xv + dx) }
    | none => s1
  match s2.y with
  | some yv => { s2 with y := some (yv + dy) }
  | none => s2

/-- Region `offsetFn`: map `regionShapeOffsetFn` over a non-empty `shapes`
array. -/
def regionOffsetFn (d : DocData) (dx dy : ℚ) : DocData :=
  match d.shapes with
  | some shs =>
    if shs.length ≠ 0 then { d with shapes := some (shs.map (regionShapeOffsetFn dx dy)) }
    else d
  | none => d

/-- One entry of the `EMBEDDED_TYPES` table:
`{ collection, documentName, offsetFn }`. -/
structure EmbeddedType where
  collection : String
  documentName : String
  offsetFn : DocData → ℚ → ℚ → DocData

/-- The `EMBEDDED_TYPES` registration table, in source order. -/
def EMBEDDED_TYPES : List EmbeddedType :=
  [⟨"walls", "Wall", wallOffsetFn⟩,
   ⟨"lights", "AmbientLight", xyOffsetFn⟩,
   ⟨"sounds", "AmbientSound", xyOffsetFn⟩,
   ⟨"tokens", "Token", xyOffsetFn⟩,
   ⟨"tiles", "Tile", xyOffsetFn⟩,
   ⟨"drawings", "Drawing", drawingOffsetFn⟩,
   ⟨"notes", "Note", xyOffsetFn⟩,
   ⟨"templates", "MeasuredTemplate", xyOffsetFn⟩,
   ⟨"regions", "Region", regionOffsetFn⟩]

/-- A layout entry `{ sceneId, x, y, width, height }` as produced by
`getLayout()` and consumed by `mergeScenes`. -/
structure Layout where
  sceneId : String
  x : ℚ
  y : ℚ
  width : ℚ
  height : ℚ
deriving DecidableEq, Inhabited, Repr

/-- Fold of `Math.min` over a list of rationals.  The source starts from
`Infinity`; over a non-empty list that is the same as folding from the
first element, which is how it is rendered here (the empty case, never
reached by the callers proved about, is given the junk value 0). -/
def listMin : List ℚ → ℚ
  | [] => 0
  | a :: rest => rest.foldl min a

/-- Fold of `Math.max` over a list of rationals (see `listMin`). -/
def listMax : List ℚ → ℚ
  | [] => 0
  | a :: rest => rest.foldl max a

/-- Result of `computeBoundingBox`. -/
structure BBoxResult where
  normalisedLayouts : List Layout
  totalWidth : ℚ
  totalHeight : ℚ
deriving DecidableEq, Inhabited, Repr

/-- `computeBoundingBox(layouts)`: compute `minX/minY/maxX/maxY` over the
entries, shift every entry by `(-minX, -minY)`, and report the spans. -/
def computeBoundingBox (layouts : List Layout) : BBoxResult :=
  let minX := listMin (layouts.map (·.x))
  let minY := listMin (layouts.map (·.y))
  let maxX := listMax (layouts.map (fun l => l.x + l.width))
  let maxY := listMax (layouts.map (fun l => l.y + l.height))
  { normalisedLayouts := layouts.map (fun l => { l with x := l.x - minX, y := l.y - minY }),
    totalWidth := maxX - minX,
    totalHeight := maxY - minY }

/-- A scene's grid configuration (`grid.size`, `grid.type`). -/
structure GridConfig where
  size : Option ℚ
  gtype : Option ℕ
deriving DecidableEq, Inhabited, Repr

/-- A source Scene document, by the fields the merge engine reads.
`dims` models the optional computed `scene.dimensions` pixel sizes;
`width`/`height` are the grid-unit fields used by the fallback path.
`collections` maps a collection name (`"walls"`, …) to its embedded
documents. -/
structure SceneDoc where
  id : String
  name : String
  grid : Option GridConfig
  backgroundSrc : Option String
  dims : Option (ℚ × ℚ)
  width : ℚ
  height : ℚ
  tokenVision : Option Bool
  fogExploration : Option Bool
  globalLight : Option Bool
  collections : List (String × List DocData)
deriving DecidableEq, Inhabited, Repr

/-- `getScenePixelDimensions(scene)`: prefer `scene.dimensions`, else
`(width * (grid?.size ?? 100), height * (grid?.size ?? 100))`. -/
def getScenePixelDimensions (s : SceneDoc) : ℚ × ℚ :=
  match s.dims with
  | some d => d
  | none =>
    let gridSize :=
      match s.grid with
      | some g => g.size.getD 100
      | none => 100
    (s.width * gridSize, s.height * gridSize)

/-- `validateGridCompatibility(scenes)`: with fewer than 2 scenes, no
warnings; otherwise compare every later scene's grid size and type with
the first scene's, pushing one warning string per mismatch. -/
def validateGridCompatibility (scenes : List SceneDoc) : List String :=
  match scenes with
  | [] => []
  | [_] => []
  | first :: rest =>
    let refSize := first.grid.bind (fun g => g.size)
    let refType := first.grid.bind (fun g => g.gtype)
    rest.foldl
      (fun ws s =>
        let sSize := s.grid.bind (fun g => g.size)
        let sType := s.grid.bind (fun g => g.gtype)
        let firstName := first.name
        let sName := s.name
        let ws1 :=
          if sSize ≠ refSize then
            ws ++ [s!"Grid size mismatch: \x22{firstName}\x22 uses {refSize}px, \x22{sName}\x22 uses {sSize}px."]
          else ws
        if sType ≠ refType then
          ws1 ++ [s!"Grid type mismatch: \x22{firstName}\x22 uses type {refType}, \x22{sName}\x22 uses type {sType}."]
        else ws1)
      []

/-- `result[key] = result[key] ?? []; result[key].push(...vs)` over a plain
JS object rendered as an insertion-ordered association list with unique
keys: extend the existing key in place, or append a new key at the end. -/
def assocAppend : List (String × List DocData) → String → List DocData → List (String × List DocData)
  | [], k, vs => [(k, vs)]
  | (k', vs') :: rest, k, vs =>
    if k' = k then (k', vs' ++ vs) :: rest
    else (k', vs') :: assocAppend rest k vs

/-- `collectEmbeddedDocuments(scene, offsetX, offsetY)`: for each entry of
`EMBEDDED_TYPES`, skip a missing or empty collection; otherwise, for each
document, take the plain-object copy (`toObject()`), delete `_id`, apply
the type's `offsetFn`, write the provenance tag, and file the batch under
the type's `documentName`. -/
def collectEmbeddedDocuments (scene : SceneDoc) (offsetX offsetY : ℚ) :
    List (String × List DocData) :=
  EMBEDDED_TYPES.foldl
    (fun result t =>
      match scene.collections.lookup t.collection with
      | none => result
      | some docs =>
        if docs.length = 0 then result
        else
          let processed := docs.map (fun doc =>
            let data := { doc with idF := none }
            let data2 := t.offsetFn data offsetX offsetY
            { data2 with tag := some ⟨scene.id, scene.name⟩ })
          assocAppend result t.documentName processed)
    []

/-- The background tile record synthesised by `createBackgroundTileData`. -/
structure TileData where
  textureSrc : String
  x : ℚ
  y : ℚ
  width : ℚ
  height : ℚ
  overhead : Bool
  sort : ℤ
  hidden : Bool
  locked : Bool
  isBackground : Bool
  sourceSceneId : String
  sourceSceneName : String
deriving DecidableEq, Inhabited, Repr

/-- `createBackgroundTileData(scene, offsetX, offsetY)`: `null` without a
background source (the JS truthiness test also rejects the empty string);
otherwise a locked, bottom-sorted, full-scene-sized tile at the offset,
tagged with provenance. -/
def createBackgroundTileData (scene : SceneDoc) (offsetX offsetY : ℚ) : Option TileData :=
  match scene.backgroundSrc with
  | none => none
  | some bgSrc =>
    if bgSrc = "" then none
    else
      let dims := getScenePixelDimensions scene
      some { textureSrc := bgSrc, x := offsetX, y := offsetY,
             width := dims.1, height := dims.2,
             overhead := false, sort := -1000, hidden := false, locked := true,
             isBackground := true,
             sourceSceneId := scene.id, sourceSceneName := scene.name }

/-- `game.scenes.get` over the layouts: the resolved Scene documents. -/
def resolvedScenes (world : List (String × SceneDoc)) (layouts : List Layout) :
    List SceneDoc :=
  layouts.filterMap (fun l => world.lookup l.sceneId)

/-- The layouts whose scene id does not resolve (`missing` in the source). -/
def missingLayouts (world : List (String × SceneDoc)) (layouts : List Layout) :
    List Layout :=
  layouts.filter (fun l => (world.lookup l.sceneId).isNone)

/-- The `allBackgroundTiles` accumulation loop of `mergeScenes`. -/
def allBackgroundTilesOf (scenes : List SceneDoc) (normLayouts : List Layout) :
    List TileData :=
  (normLayouts.zip scenes).filterMap
    (fun (p : Layout × SceneDoc) => createBackgroundTileData p.2 p.1.x p.1.y)

/-- The `allEmbedded` accumulation loop of `mergeScenes`: per scene, merge
the collected batches into one insertion-ordered map `documentName →
data[]`, concatenating in source-scene order. -/
def allEmbeddedOf (scenes : List SceneDoc) (normLayouts : List Layout) :
    List (String × List DocData) :=
  (normLayouts.zip scenes).foldl
    (fun acc p =>
      (collectEmbeddedDocuments p.2 p.1.x p.1.y).foldl
        (fun a2 q => assocAppend a2 q.1 q.2) acc)
    []

/-- The warning text of the per-type persistence `catch` handler
(`ui.notifications.warn`). -/
def persistFailureMsg (docName : String) : String :=
  "Scene Stitcher: Some " ++ docName ++ " documents could not be created. Check the console for details."

/-- The per-type persistence loop of `mergeScenes`: batches are submitted
one type at a time, in `allEmbedded` order; a failing batch is caught,
skipped, and reported as a non-fatal notification naming the type, and the
remaining types are still attempted.  `createOk` is the persistence
collaborator's per-batch success oracle.  Returns the successfully
committed batches and the notifications, in order. -/
def persistLoop (createOk : String → Bool) :
    List (String × List DocData) → List (String × List DocData) × List String
  | [] => ([], [])
  | (docName, docs) :: rest =>
    let r := persistLoop createOk rest
    if 0 < docs.length then
      if createOk docName then ((docName, docs) :: r.1, r.2)
      else (r.1, persistFailureMsg docName :: r.2)
    else r

/-- Boolean predicate: a batch that is non-empty and persists successfully. -/
def keptBatch (createOk : String → Bool) (p : String × List DocData) : Bool :=
  decide (0 < p.2.length) && createOk p.1

/-- Boolean predicate: a batch that is non-empty and fails to persist. -/
def failedBatch (createOk : String → Bool) (p : String × List DocData) : Bool :=
  decide (0 < p.2.length) && !createOk p.1

/-- The result of `mergeScenes`: the created Scene document, the grid
warnings of the returned `{ mergedScene, warnings }` value, the UI
notifications issued by the persistence `catch` handler, and the committed
background-tile and per-type batches. -/
structure MergeOut where
  mergedScene : SceneDoc
  warnings : List String
  notifications : List String
  committedTiles : List TileData
  committed : List (String × List DocData)
deriving DecidableEq, Inhabited, Repr

/-- `mergeScenes(sceneLayouts, options)` over an explicit world
(`game.scenes` as an association list).  `createOk` is the persistence
collaborator's per-document-type success oracle; `freshId` the id the
collaborator assigns to the created scene (`Scene.create` itself is
assumed to succeed).  An unresolvable scene id aborts before any output;
the background-tile batch is awaited outside any try/catch, so its failure
rejects the merge; per-type batches run under the catch modelled by
`persistLoop`.  The second component is the world after the call. -/
def mergeScenes (world : List (String × SceneDoc)) (sceneLayouts : List Layout)
    (optName : Option String) (createOk : String → Bool) (freshId : String) :
    Except String MergeOut × List (String × SceneDoc) :=
  if missingLayouts world sceneLayouts ≠ [] then
    (Except.error ("Could not find scenes: " ++
       String.intercalate ", " ((missingLayouts world sceneLayouts).map (fun l => l.sceneId))),
     world)
  else
    let scenes := resolvedScenes world sceneLayouts
    let bb := computeBoundingBox sceneLayouts
    let warnings := validateGridCompatibility scenes
    let firstScene := scenes.headD default
    let gridConfig := firstScene.grid.getD ⟨some 100, some 1⟩
    let sceneName :=
      match optName with
      | some n => if n = "" then "Merged Scene" else n
      | none => "Merged Scene"
    let gridSize :=
      match gridConfig.size with
      | some sz => if sz = 0 then 100 else sz
      | none => 100
    let merged : SceneDoc :=
      { id := freshId, name := sceneName, grid := some gridConfig,
        backgroundSrc := none, dims := none,
        width := (⌈bb.totalWidth / gridSize⌉ : ℤ),
        height := (⌈bb.totalHeight / gridSize⌉ : ℤ),
        tokenVision := some (firstScene.tokenVision.getD true),
        fogExploration := some (firstScene.fogExploration.getD true),
        globalLight := some (firstScene.globalLight.getD false),
        collections := [] }
    let allTiles := allBackgroundTilesOf scenes bb.normalisedLayouts
    let allEmb := allEmbeddedOf scenes bb.normalisedLayouts
    if allTiles ≠ [] ∧ createOk "Tile" = false then
      (Except.error "Tile creation failed", world ++ [(freshId, merged)])
    else
      let pr := persistLoop createOk allEmb
      (Except.ok { mergedScene := merged, warnings := warnings, notifications := pr.2,
                   committedTiles := allTiles, committed := pr.1 },
       world ++ [(freshId, merged)])

/-! ## Sample inputs used to instantiate the theorems -/

/-- A baseline viewport state (no scenes, zoom 2, pan (3,5)). -/
def sampleState : CanvasState :=
  { canvasW := 1000, canvasH := 800, scenes := [], zoom := 2, panX := 3, panY := 5,
    snapX := true, snapY := true, dragging := none, panning := false,
    snapGuides := [], layoutChangeCount := 0 }

/-- `sampleState` with an active drag. -/
def dragSampleState : CanvasState :=
  { sampleState with dragging := some ⟨0, 0, 0, 0, 0⟩ }

/-- A state with one placed scene, used to exercise `fitAllOp`. -/
def fitSample : CanvasState :=
  { sampleState with
    zoom := 1, panX := 0, panY := 0,
    scenes := [⟨"s1", "A", 100, 100, 20, 20⟩] }

/-- The moving rectangle of the snap examples (50×50). -/
def snapMover : SceneEntry := ⟨"m", "M", 50, 50, 0, 0⟩

/-- A static rectangle whose right edge sits at x = 100. -/
def snapNeighbor : SceneEntry := ⟨"r1", "R1", 50, 50, 50, 500⟩

/-- A static rectangle whose left edge sits at x = 155. -/
def snapThird : SceneEntry := ⟨"r2", "R2", 50, 50, 155, 500⟩

/-- Snap state with the mover and one exactly-aligned neighbour. -/
def snapState2 : CanvasState :=
  { sampleState with zoom := 1, scenes := [snapMover, snapNeighbor] }

/-- Snap state with the mover, the exactly-aligned neighbour, and a later
candidate within threshold. -/
def snapState3 : CanvasState :=
  { sampleState with zoom := 1, scenes := [snapMover, snapNeighbor, snapThird] }

/-- A wall document with endpoints (10,10)–(50,10). -/
def sampleWallDoc : DocData :=
  { idF := some "w1", c := some (10, 10, 50, 10), x := none, y := none,
    shapePoints := none, shapes := none, tag := none, rest := "wall" }

/-- A point-anchored document at (5,5). -/
def sampleAnchorDoc : DocData :=
  { idF := none, c := none, x := some 5, y := some 5,
    shapePoints := none, shapes := none, tag := none, rest := "light" }

/-- A drawing document anchored at (5,5) with relative point list
[0,0,10,0,10,10]. -/
def sampleDrawingDoc : DocData :=
  { idF := none, c := none, x := some 5, y := some 5,
    shapePoints := some [0, 0, 10, 0, 10, 10], shapes := none, tag := none,
    rest := "drawing" }

/-- The common grid configuration of the sample scenes. -/
def sampleGrid : GridConfig := ⟨some 100, some 1⟩

/-- Sample scene A, with one wall. -/
def sceneA : SceneDoc :=
  { id := "a", name := "A", grid := some sampleGrid, backgroundSrc := none,
    dims := some (400, 300), width := 4, height := 3,
    tokenVision := some true, fogExploration := some true, globalLight := some false,
    collections := [("walls", [sampleWallDoc])] }

/-- Sample scene B, with no embedded documents. -/
def sceneB : SceneDoc :=
  { id := "b", name := "B", grid := some sampleGrid, backgroundSrc := none,
    dims := some (400, 300), width := 4, height := 3,
    tokenVision := some true, fogExploration := some true, globalLight := some false,
    collections := [] }

/-- A two-scene world. -/
def sampleWorld : List (String × SceneDoc) := [("a", sceneA), ("b", sceneB)]

/-- A side-by-side layout of the two sample scenes. -/
def sampleLayouts : List Layout := [⟨"a", 0, 0, 400, 300⟩, ⟨"b", 400, 0, 400, 300⟩]

/-- A persistence oracle that fails exactly the `Wall` batch. -/
def wallFailOracle : String → Bool := fun n => !(n == "Wall")

/-! ## Helper lemmas -/

theorem foldl_min_le_init (l : List ℚ) (a : ℚ) : l.foldl min a ≤ a := by
  induction l generalizing a with
  | nil => exact le_refl a
  | cons b t ih => exact le_trans (ih (min a b)) (min_le_left a b)

theorem foldl_min_le_mem {x : ℚ} {l : List ℚ} (h : x ∈ l) (a : ℚ) :
    l.foldl min a ≤ x := by
  induction l generalizing a with
  | nil => cases h
  | cons b t ih =>
    rcases List.mem_cons.1 h with rfl | hx
    · exact le_trans (foldl_min_le_init t (min a x)) (min_le_right a x)
    · exact ih hx (min a b)

theorem foldl_min_eq_or_mem (l : List ℚ) (a : ℚ) :
    l.foldl min a = a ∨ l.foldl min a ∈ l := by
  induction l generalizing a with
  | nil => exact Or.inl rfl
  | cons b t ih =>
    rcases ih (min a b) with heq | hmem
    · rcases min_choice a b with hab | hab
      · exact Or.inl (by rw [List.foldl_cons, heq, hab])
      · exact Or.inr (by rw [List.foldl_cons, heq, hab]; exact List.mem_cons_self b t)
    · exact Or.inr (List.mem_cons_of_mem b hmem)

theorem listMin_le {l : List ℚ} {x : ℚ} (h : x ∈ l) : listMin l ≤ x := by
  cases l with
  | nil => cases h
  | cons a t =>
    rcases List.mem_cons.1 h with rfl | hx
    · exact foldl_min_le_init t x
    · exact foldl_min_le_mem hx a

theorem listMin_mem {l : List ℚ} (h : l ≠ []) : listMin l ∈ l := by
  cases l with
  | nil => exact absurd rfl h
  | cons a t =>
    rcases foldl_min_eq_or_mem t a with heq | hmem
    · simp only [listMin]
      rw [heq]
      exact List.mem_cons_self a t
    · simp only [listMin]
      exact List.mem_cons_of_mem a hmem

theorem lookup_append_of_isSome (l₁ l₂ : List (String × SceneDoc)) (k : String)
    (h : (l₁.lookup k).isSome = true) : (l₁ ++ l₂).lookup k = l₁.lookup k := by
  induction l₁ with
  | nil => simp [List.lookup] at h
  | cons hd tl ih =>
    rcases hd with ⟨k', v⟩
    by_cases hk : (k == k') = true
    · simp [List.lookup, hk]
    · simp only [Bool.not_eq_true] at hk
      simp only [List.cons_append, List.lookup, hk] at h ⊢
      exact ih h

theorem snapStepX_sx (threshold dLeft dRight dw : ℚ) (other : SceneEntry)
    (acc : SnapAcc) :
    (snapStepX threshold dLeft dRight dw other acc).sx =
      if qualifiesX threshold dLeft dRight other
      then xSnapValue threshold dLeft dRight dw other
      else acc.sx := by
  simp only [snapStepX, qualifiesX, xSnapValue]
  by_cases h1 : |dLeft - (other.x + other.width)| < threshold <;>
  by_cases h2 : |dRight - other.x| < threshold <;>
  by_cases h3 : |dLeft - other.x| < threshold <;>
  by_cases h4 : |dRight - (other.x + other.width)| < threshold <;>
    simp [h1, h2, h3, h4]

theorem snapStepX_sy (threshold dLeft dRight dw : ℚ) (other : SceneEntry)
    (acc : SnapAcc) :
    (snapStepX threshold dLeft dRight dw other acc).sy = acc.sy := by
  simp only [snapStepX]
  split_ifs <;> rfl

theorem snapStepY_sy (threshold dTop dBottom dh : ℚ) (other : SceneEntry)
    (acc : SnapAcc) :
    (snapStepY threshold dTop dBottom dh other acc).sy =
      if qualifiesY threshold dTop dBottom other
      then ySnapValue threshold dTop dBottom dh other
      else acc.sy := by
  simp only [snapStepY, qualifiesY, ySnapValue]
  by_cases h1 : |dTop - (other.y + other.height)| < threshold <;>
  by_cases h2 : |dBottom - other.y| < threshold <;>
  by_cases h3 : |dTop - other.y| < threshold <;>
  by_cases h4 : |dBottom - (other.y + other.height)| < threshold <;>
    simp [h1, h2, h3, h4]

theorem snapStepY_sx (threshold dTop dBottom dh : ℚ) (other : SceneEntry)
    (acc : SnapAcc) :
    (snapStepY threshold dTop dBottom dh other acc).sx = acc.sx := by
  simp only [snapStepY]
  split_ifs <;> rfl

theorem snapStep_sx (sX sY : Bool) (threshold dLeft dRight dTop dBottom dw dh : ℚ)
    (other : SceneEntry) (acc : SnapAcc) :
    (snapStep sX sY threshold dLeft dRight dTop dBottom dw dh other acc).sx =
      if sX = true ∧ qualifiesX threshold dLeft dRight other
      then xSnapValue threshold dLeft dRight dw other
      else acc.sx := by
  simp only [snapStep]
  cases sX <;> cases sY <;>
    simp [snapStepY_sx, snapStepX_sx]

theorem snapStep_sy (sX sY : Bool) (threshold dLeft dRight dTop dBottom dw dh : ℚ)
    (other : SceneEntry) (acc : SnapAcc) :
    (snapStep sX sY threshold dLeft dRight dTop dBottom dw dh other acc).sy =
      if sY = true ∧ qualifiesY threshold dTop dBottom other
      then ySnapValue threshold dTop dBottom dh other
      else acc.sy := by
  simp only [snapStep]
  cases sX <;> cases sY <;>
    simp [snapStepY_sy, snapStepX_sy]

theorem computeSnapIter_sx (sX sY : Bool) (dragIndex : ℕ)
    (threshold dLeft dRight dTop dBottom dw dh : ℚ) (acc : SnapAcc)
    (p : ℕ × SceneEntry) :
    (computeSnapIter sX sY dragIndex threshold dLeft dRight dTop dBottom dw dh acc p).sx =
      if p.1 ≠ dragIndex ∧ sX = true ∧ qualifiesX threshold dLeft dRight p.2
      then xSnapValue threshold dLeft dRight dw p.2
      else acc.sx := by
  simp only [computeSnapIter]
  by_cases hp : p.1 = dragIndex <;> simp [hp, snapStep_sx]

theorem computeSnapIter_sy (sX sY : Bool) (dragIndex : ℕ)
    (threshold dLeft dRight dTop dBottom dw dh : ℚ) (acc : SnapAcc)
    (p : ℕ × SceneEntry) :
    (computeSnapIter sX sY dragIndex threshold dLeft dRight dTop dBottom dw dh acc p).sy =
      if p.1 ≠ dragIndex ∧ sY = true ∧ qualifiesY threshold dTop dBottom p.2
      then ySnapValue threshold dTop dBottom dh p.2
      else acc.sy := by
  simp only [computeSnapIter]
  by_cases hp : p.1 = dragIndex <;> simp [hp, snapStep_sy]

theorem foldl_iter_sx_const (sX sY : Bool) (dragIndex : ℕ)
    (threshold dLeft dRight dTop dBottom dw dh : ℚ) :
    ∀ (l : List (ℕ × SceneEntry)) (acc : SnapAcc),
      (∀ q ∈ l, q.1 ≠ dragIndex → ¬ qualifiesX threshold dLeft dRight q.2) →
      (l.foldl (computeSnapIter sX sY dragIndex threshold dLeft dRight dTop dBottom dw dh) acc).sx
        = acc.sx := by
  intro l
  induction l with
  | nil => intro acc _; rfl
  | cons p t ih =>
    intro acc hall
    rw [List.foldl_cons, ih _ (fun q hq hne => hall q (List.mem_cons_of_mem p hq) hne),
      computeSnapIter_sx]
    by_cases hp : p.1 = dragIndex
    · simp [hp]
    · simp [hp, hall p (List.mem_cons_self p t) hp]

theorem foldl_iter_sy_const (sX sY : Bool) (dragIndex : ℕ)
    (threshold dLeft dRight dTop dBottom dw dh : ℚ) :
    ∀ (l : List (ℕ × SceneEntry)) (acc : SnapAcc),
      (∀ q ∈ l, q.1 ≠ dragIndex → ¬ qualifiesY threshold dTop dBottom q.2) →
      (l.foldl (computeSnapIter sX sY dragIndex threshold dLeft dRight dTop dBottom dw dh) acc).sy
        = acc.sy := by
  intro l
  induction l with
  | nil => intro acc _; rfl
  | cons p t ih =>
    intro acc hall
    rw [List.foldl_cons, ih _ (fun q hq hne => hall q (List.mem_cons_of_mem p hq) hne),
      computeSnapIter_sy]
    by_cases hp : p.1 = dragIndex
    · simp [hp]
    · simp [hp, hall p (List.mem_cons_self p t) hp]

theorem computeSnap_lastX_aux (s : CanvasState) (dragIndex : ℕ) (newX newY : ℚ)
    (l1 l2 : List (ℕ × SceneEntry)) (i : ℕ) (r : SceneEntry)
    (hsx : s.snapX = true)
    (henum : s.scenes.enum = l1 ++ (i, r) :: l2)
    (hi : i ≠ dragIndex)
    (hq : qualifiesX (snapThr s) newX (newX + dragWidth s dragIndex) r)
    (hrest : ∀ q ∈ l2, q.1 ≠ dragIndex →
      ¬ qualifiesX (snapThr s) newX (newX + dragWidth s dragIndex) q.2) :
    (computeSnap s dragIndex newX newY false).sx =
      xSnapValue (snapThr s) newX (newX + dragWidth s dragIndex)
        (dragWidth s dragIndex) r := by
  have hq' := hq
  have hrest' := hrest
  simp only [snapThr, dragWidth] at hq' hrest'
  simp only [computeSnap, hsx]
  rw [if_neg (by simp)]
  rw [henum, List.foldl_append, List.foldl_cons]
  rw [foldl_iter_sx_const _ _ _ _ _ _ _ _ _ _ l2 _ hrest']
  rw [computeSnapIter_sx]
  rw [if_pos ⟨hi, rfl, hq'⟩]
  rfl

theorem computeSnap_lastY_aux (s : CanvasState) (dragIndex : ℕ) (newX newY : ℚ)
    (l1 l2 : List (ℕ × SceneEntry)) (i : ℕ) (r : SceneEntry)
    (hsy : s.snapY = true)
    (henum : s.scenes.enum = l1 ++ (i, r) :: l2)
    (hi : i ≠ dragIndex)
    (hq : qualifiesY (snapThr s) newY (newY + dragHeight s dragIndex) r)
    (hrest : ∀ q ∈ l2, q.1 ≠ dragIndex →
      ¬ qualifiesY (snapThr s) newY (newY + dragHeight s dragIndex) q.2) :
    (computeSnap s dragIndex newX newY false).sy =
      ySnapValue (snapThr s) newY (newY + dragHeight s dragIndex)
        (dragHeight s dragIndex) r := by
  have hq' := hq
  have hrest' := hrest
  simp only [snapThr, dragHeight] at hq' hrest'
  simp only [computeSnap, hsy]
  rw [if_neg (by simp)]
  rw [henum, List.foldl_append, List.foldl_cons]
  rw [foldl_iter_sy_const _ _ _ _ _ _ _ _ _ _ l2 _ hrest']
  rw [computeSnapIter_sy]
  rw [if_pos ⟨hi, rfl, hq'⟩]
  rfl

theorem snapStepX_guides_mem (threshold dLeft dRight dw : ℚ) (other : SceneEntry)
    (acc : SnapAcc) {g : SnapGuide} (h : g ∈ acc.guides) :
    g ∈ (snapStepX threshold dLeft dRight dw other acc).guides := by
  simp only [snapStepX]
  split_ifs <;> simp [h]

theorem snapStepY_guides_mem (threshold dTop dBottom dh : ℚ) (other : SceneEntry)
    (acc : SnapAcc) {g : SnapGuide} (h : g ∈ acc.guides) :
    g ∈ (snapStepY threshold dTop dBottom dh other acc).guides := by
  simp only [snapStepY]
  split_ifs <;> simp [h]

theorem snapStep_guides_mem (sX sY : Bool) (threshold dLeft dRight dTop dBottom dw dh : ℚ)
    (other : SceneEntry) (acc : SnapAcc) {g : SnapGuide} (h : g ∈ acc.guides) :
    g ∈ (snapStep sX sY threshold dLeft dRight dTop dBottom dw dh other acc).guides := by
  simp only [snapStep]
  cases sX <;> cases sY
  · exact h
  · exact snapStepY_guides_mem _ _ _ _ _ _ h
  · exact snapStepX_guides_mem _ _ _ _ _ _ h
  · exact snapStepY_guides_mem _ _ _ _ _ _ (snapStepX_guides_mem _ _ _ _ _ _ h)

theorem computeSnapIter_guides_mem (sX sY : Bool) (dragIndex : ℕ)
    (threshold dLeft dRight dTop dBottom dw dh : ℚ) (acc : SnapAcc)
    (p : ℕ × SceneEntry) {g : SnapGuide} (h : g ∈ acc.guides) :
    g ∈ (computeSnapIter sX sY dragIndex threshold dLeft dRight dTop dBottom dw dh acc p).guides := by
  simp only [computeSnapIter]
  by_cases hp : p.1 = dragIndex
  · rw [if_pos hp]; exact h
  · rw [if_neg hp]; exact snapStep_guides_mem _ _ _ _ _ _ _ _ _ _ _ h

theorem foldl_iter_guides_mem (sX sY : Bool) (dragIndex : ℕ)
    (threshold dLeft dRight dTop dBottom dw dh : ℚ) :
    ∀ (l : List (ℕ × SceneEntry)) (acc : SnapAcc) (g : SnapGuide), g ∈ acc.guides →
      g ∈ (l.foldl (computeSnapIter sX sY dragIndex threshold dLeft dRight dTop dBottom dw dh) acc).guides := by
  intro l
  induction l with
  | nil => intro acc g h; exact h
  | cons p t ih =>
    intro acc g h
    rw [List.foldl_cons]
    exact ih _ g (computeSnapIter_guides_mem _ _ _ _ _ _ _ _ _ _ _ _ h)

theorem snapStepX_guide_of_case (threshold dLeft dRight dw : ℚ) (other : SceneEntry)
    (acc : SnapAcc) (v : ℚ)
    (h : (|dLeft - (other.x + other.width)| < threshold ∧ v = other.x + other.width) ∨
         (|dRight - other.x| < threshold ∧ v = other.x) ∨
         (|dLeft - other.x| < threshold ∧ v = other.x) ∨
         (|dRight - (other.x + other.width)| < threshold ∧ v = other.x + other.width)) :
    (⟨Axis.x, v⟩ : SnapGuide) ∈ (snapStepX threshold dLeft dRight dw other acc).guides := by
  simp only [snapStepX]
  rcases h with ⟨hc, rfl⟩ | ⟨hc, rfl⟩ | ⟨hc, rfl⟩ | ⟨hc, rfl⟩ <;>
    split_ifs <;> simp_all

theorem snapStepY_guide_of_case (threshold dTop dBottom dh : ℚ) (other : SceneEntry)
    (acc : SnapAcc) (v : ℚ)
    (h : (|dTop - (other.y + other.height)| < threshold ∧ v = other.y + other.height) ∨
         (|dBottom - other.y| < threshold ∧ v = other.y) ∨
         (|dTop - other.y| < threshold ∧ v = other.y) ∨
         (|dBottom - (other.y + other.height)| < threshold ∧ v = other.y + other.height)) :
    (⟨Axis.y, v⟩ : SnapGuide) ∈ (snapStepY threshold dTop dBottom dh other acc).guides := by
  simp only [snapStepY]
  rcases h with ⟨hc, rfl⟩ | ⟨hc, rfl⟩ | ⟨hc, rfl⟩ | ⟨hc, rfl⟩ <;>
    split_ifs <;> simp_all

theorem snapStep_guideX_of_case (sY : Bool) (threshold dLeft dRight dTop dBottom dw dh : ℚ)
    (other : SceneEntry) (acc : SnapAcc) (v : ℚ)
    (h : (|dLeft - (other.x + other.width)| < threshold ∧ v = other.x + other.width) ∨
         (|dRight - other.x| < threshold ∧ v = other.x) ∨
         (|dLeft - other.x| < threshold ∧ v = other.x) ∨
         (|dRight - (other.x + other.width)| < threshold ∧ v = other.x + other.width)) :
    (⟨Axis.x, v⟩ : SnapGuide) ∈
      (snapStep true sY threshold dLeft dRight dTop dBottom dw dh other acc).guides := by
  simp only [snapStep]
  cases sY
  · exact snapStepX_guide_of_case _ _ _ _ _ _ _ h
  · exact snapStepY_guides_mem _ _ _ _ _ _ (snapStepX_guide_of_case _ _ _ _ _ _ _ h)

theorem snapStep_guideY_of_case (sX : Bool) (threshold dLeft dRight dTop dBottom dw dh : ℚ)
    (other : SceneEntry) (acc : SnapAcc) (v : ℚ)
    (h : (|dTop - (other.y + other.height)| < threshold ∧ v = other.y + other.height) ∨
         (|dBottom - other.y| < threshold ∧ v = other.y) ∨
         (|dTop - other.y| < threshold ∧ v = other.y) ∨
         (|dBottom - (other.y + other.height)| < threshold ∧ v = other.y + other.height)) :
    (⟨Axis.y, v⟩ : SnapGuide) ∈
      (snapStep sX true threshold dLeft dRight dTop dBottom dw dh other acc).guides := by
  simp only [snapStep]
  cases sX
  · exact snapStepY_guide_of_case _ _ _ _ _ _ _ h
  · exact snapStepY_guide_of_case _ _ _ _ _ _ _ h

theorem computeSnapIter_guideX_of_case (sY : Bool) (dragIndex : ℕ)
    (threshold dLeft dRight dTop dBottom dw dh : ℚ) (acc : SnapAcc)
    (i : ℕ) (r : SceneEntry) (v : ℚ) (hi : i ≠ dragIndex)
    (h : (|dLeft - (r.x + r.width)| < threshold ∧ v = r.x + r.width) ∨
         (|dRight - r.x| < threshold ∧ v = r.x) ∨
         (|dLeft - r.x| < threshold ∧ v = r.x) ∨
         (|dRight - (r.x + r.width)| < threshold ∧ v = r.x + r.width)) :
    (⟨Axis.x, v⟩ : SnapGuide) ∈
      (computeSnapIter true sY dragIndex threshold dLeft dRight dTop dBottom dw dh acc (i, r)).guides := by
  simp only [computeSnapIter]
  rw [if_neg hi]
  exact snapStep_guideX_of_case _ _ _ _ _ _ _ _ _ _ _ h

theorem computeSnapIter_guideY_of_case (sX : Bool) (dragIndex : ℕ)
    (threshold dLeft dRight dTop dBottom dw dh : ℚ) (acc : SnapAcc)
    (i : ℕ) (r : SceneEntry) (v : ℚ) (hi : i ≠ dragIndex)
    (h : (|dTop - (r.y + r.height)| < threshold ∧ v = r.y + r.height) ∨
         (|dBottom - r.y| < threshold ∧ v = r.y) ∨
         (|dTop - r.y| < threshold ∧ v = r.y) ∨
         (|dBottom - (r.y + r.height)| < threshold ∧ v = r.y + r.height)) :
    (⟨Axis.y, v⟩ : SnapGuide) ∈
      (computeSnapIter sX true dragIndex threshold dLeft dRight dTop dBottom dw dh acc (i, r)).guides := by
  simp only [computeSnapIter]
  rw [if_neg hi]
  exact snapStep_guideY_of_case _ _ _ _ _ _ _ _ _ _ _ h

theorem xSnapValue_eq_of_all (thr dLeft dRight dw v : ℚ) (other : SceneEntry)
    (h1 : |dLeft - (other.x + other.width)| < thr → other.x + other.width = v)
    (h2 : |dRight - other.x| < thr → other.x - dw = v)
    (h3 : |dLeft - other.x| < thr → other.x = v)
    (h4 : |dRight - (other.x + other.width)| < thr → other.x + other.width - dw = v)
    (hq : qualifiesX thr dLeft dRight other) :
    xSnapValue thr dLeft dRight dw other = v := by
  simp only [xSnapValue]
  split_ifs with c4 c3 c2
  · exact h4 c4
  · exact h3 c3
  · exact h2 c2
  · rcases hq with hc | hc | hc | hc
    · exact h1 hc
    · exact absurd hc c2
    · exact absurd hc c3
    · exact absurd hc c4

theorem ySnapValue_eq_of_all (thr dTop dBottom dh v : ℚ) (other : SceneEntry)
    (h1 : |dTop - (other.y + other.height)| < thr → other.y + other.height = v)
    (h2 : |dBottom - other.y| < thr → other.y - dh = v)
    (h3 : |dTop - other.y| < thr → other.y = v)
    (h4 : |dBottom - (other.y + other.height)| < thr → other.y + other.height - dh = v)
    (hq : qualifiesY thr dTop dBottom other) :
    ySnapValue thr dTop dBottom dh other = v := by
  simp only [ySnapValue]
  split_ifs with c4 c3 c2
  · exact h4 c4
  · exact h3 c3
  · exact h2 c2
  · rcases hq with hc | hc | hc | hc
    · exact h1 hc
    · exact absurd hc c2
    · exact absurd hc c3
    · exact absurd hc c4

theorem foldl_iter_sx_inv (sX sY : Bool) (dragIndex : ℕ)
    (threshold dLeft dRight dTop dBottom dw dh v : ℚ) :
    ∀ (l : List (ℕ × SceneEntry)) (acc : SnapAcc),
      acc.sx = v →
      (∀ q ∈ l, q.1 ≠ dragIndex →
        (|dLeft - (q.2.x + q.2.width)| < threshold → q.2.x + q.2.width = v) ∧
        (|dRight - q.2.x| < threshold → q.2.x - dw = v) ∧
        (|dLeft - q.2.x| < threshold → q.2.x = v) ∧
        (|dRight - (q.2.x + q.2.width)| < threshold → q.2.x + q.2.width - dw = v)) →
      (l.foldl (computeSnapIter sX sY dragIndex threshold dLeft dRight dTop dBottom dw dh) acc).sx
        = v := by
  intro l
  induction l with
  | nil => intro acc ha _; exact ha
  | cons p t ih =>
    intro acc ha hall
    rw [List.foldl_cons]
    apply ih
    · rw [computeSnapIter_sx]
      by_cases hcond : p.1 ≠ dragIndex ∧ sX = true ∧ qualifiesX threshold dLeft dRight p.2
      · rw [if_pos hcond]
        obtain ⟨hp, _, hq⟩ := hcond
        obtain ⟨k1, k2, k3, k4⟩ := hall p (List.mem_cons_self p t) hp
        exact xSnapValue_eq_of_all _ _ _ _ _ _ k1 k2 k3 k4 hq
      · rw [if_neg hcond]; exact ha
    · exact fun q hq hne => hall q (List.mem_cons_of_mem p hq) hne

theorem foldl_iter_sy_inv (sX sY : Bool) (dragIndex : ℕ)
    (threshold dLeft dRight dTop dBottom dw dh v : ℚ) :
    ∀ (l : List (ℕ × SceneEntry)) (acc : SnapAcc),
      acc.sy = v →
      (∀ q ∈ l, q.1 ≠ dragIndex →
        (|dTop - (q.2.y + q.2.height)| < threshold → q.2.y + q.2.height = v) ∧
        (|dBottom - q.2.y| < threshold → q.2.y - dh = v) ∧
        (|dTop - q.2.y| < threshold → q.2.y = v) ∧
        (|dBottom - (q.2.y + q.2.height)| < threshold → q.2.y + q.2.height - dh = v)) →
      (l.foldl (computeSnapIter sX sY dragIndex threshold dLeft dRight dTop dBottom dw dh) acc).sy
        = v := by
  intro l
  induction l with
  | nil => intro acc ha _; exact ha
  | cons p t ih =>
    intro acc ha hall
    rw [List.foldl_cons]
    apply ih
    · rw [computeSnapIter_sy]
      by_cases hcond : p.1 ≠ dragIndex ∧ sY = true ∧ qualifiesY threshold dTop dBottom p.2
      · rw [if_pos hcond]
        obtain ⟨hp, _, hq⟩ := hcond
        obtain ⟨k1, k2, k3, k4⟩ := hall p (List.mem_cons_self p t) hp
        exact ySnapValue_eq_of_all _ _ _ _ _ _ k1 k2 k3 k4 hq
      · rw [if_neg hcond]; exact ha
    · exact fun q hq hne => hall q (List.mem_cons_of_mem p hq) hne

theorem persistLoop_eq (createOk : String → Bool) (l : List (String × List DocData)) :
    persistLoop createOk l =
      (l.filter (keptBatch createOk),
       (l.filter (failedBatch createOk)).map (fun p => persistFailureMsg p.1)) := by
  induction l with
  | nil => rfl
  | cons hd tl ih =>
    rcases hd with ⟨docName, docs⟩
    simp only [persistLoop, ih]
    by_cases hlen : 0 < docs.length
    · by_cases hok : createOk docName = true
      · simp [List.filter_cons, keptBatch, failedBatch, hlen, hok]
      · simp [List.filter_cons, keptBatch, failedBatch, hlen, hok]
    · simp [List.filter_cons, keptBatch, failedBatch, hlen]

/-! ## Claims about the Layout Canvas -/

/-- C5: for every point (x, y) and every viewport state with zoom > 0,
`screenToWorld(worldToScreen(x, y)) = (x, y)` exactly over exact
arithmetic, where `worldToScreen` is `_sceneToCanvas` and `screenToWorld`
is `_canvasToScene`. -/
theorem viewport_roundtrip (s : CanvasState) (x y : ℚ) (hz : 0 < s.zoom) :
    canvasToScene s (sceneToCanvas s x y).1 (sceneToCanvas s x y).2 = (x, y) := by
  have hz0 : s.zoom ≠ 0 := ne_of_gt hz
  simp only [canvasToScene, sceneToCanvas]
  rw [Prod.ext_iff]
  constructor <;> (field_simp)

/-- Witness for C5 at zoom 2, pan (3,5), point (7,9). -/
theorem viewport_roundtrip_witness :
    canvasToScene sampleState (sceneToCanvas sampleState 7 9).1
      (sceneToCanvas sampleState 7 9).2 = (7, 9) :=
  viewport_roundtrip sampleState 7 9 (by norm_num [sampleState])

/-- C6: for every anchor canvas point and target zoom inside
`[MIN_ZOOM, MAX_ZOOM]`, the world coordinate under the anchor before
`_setZoom` equals the world coordinate under it afterwards. -/
theorem zoom_anchor_invariant (s : CanvasState) (newZoom cx cy : ℚ)
    (hz : 0 < s.zoom) (h1 : MIN_ZOOM ≤ newZoom) (h2 : newZoom ≤ MAX_ZOOM) :
    canvasToScene (setZoomOp s newZoom cx cy) cx cy = canvasToScene s cx cy := by
  have hc : max MIN_ZOOM (min MAX_ZOOM newZoom) = newZoom := by
    rw [min_eq_right h2, max_eq_right h1]
  have hz0 : s.zoom ≠ 0 := ne_of_gt hz
  have hnz : newZoom ≠ 0 := by
    have h0 : (0 : ℚ) < newZoom := lt_of_lt_of_le (by norm_num [MIN_ZOOM]) h1
    exact ne_of_gt h0
  simp only [setZoomOp, canvasToScene, hc]
  rw [Prod.ext_iff]
  constructor <;> (field_simp; ring)

/-- Witness for C6 at zoom 2 → 1, anchor (10, 20). -/
theorem zoom_anchor_invariant_witness :
    canvasToScene (setZoomOp sampleState 1 10 20) 10 20
      = canvasToScene sampleState 10 20 :=
  zoom_anchor_invariant sampleState 1 10 20 (by norm_num [sampleState])
    (by norm_num [MIN_ZOOM]) (by norm_num [MAX_ZOOM])

/-- C7: the invariant `MIN_ZOOM ≤ zoom ≤ MAX_ZOOM` is established by
`_setZoom` (with exact clamping to 0.1 below and 4.0 above) and by
`fitAll` on a non-empty scene list; `_handlePointerUp` never touches the
zoom. -/
theorem zoom_clamp_invariant :
    (∀ (s : CanvasState) (nz cx cy : ℚ),
        MIN_ZOOM ≤ (setZoomOp s nz cx cy).zoom ∧ (setZoomOp s nz cx cy).zoom ≤ MAX_ZOOM) ∧
    (∀ (s : CanvasState) (nz cx cy : ℚ), nz < MIN_ZOOM →
        (setZoomOp s nz cx cy).zoom = MIN_ZOOM) ∧
    (∀ (s : CanvasState) (nz cx cy : ℚ), MAX_ZOOM < nz →
        (setZoomOp s nz cx cy).zoom = MAX_ZOOM) ∧
    (∀ s : CanvasState, s.scenes ≠ [] →
        MIN_ZOOM ≤ (fitAllOp s).zoom ∧ (fitAllOp s).zoom ≤ MAX_ZOOM) ∧
    (∀ s : CanvasState, (pointerUpOp s).zoom = s.zoom) := by
  refine ⟨?_, ?_, ?_, ?_, ?_⟩
  · intro s nz cx cy
    simp only [setZoomOp]
    exact ⟨le_max_left _ _,
      max_le (by norm_num [MIN_ZOOM, MAX_ZOOM]) (min_le_left _ _)⟩
  · intro s nz cx cy h
    simp only [setZoomOp]
    rw [min_eq_right (le_of_lt (lt_of_lt_of_le h (by norm_num [MIN_ZOOM, MAX_ZOOM]))),
      max_eq_left (le_of_lt h)]
  · intro s nz cx cy h
    simp only [setZoomOp]
    rw [min_eq_left (le_of_lt h), max_eq_right (by norm_num [MIN_ZOOM, MAX_ZOOM])]
  · intro s hs
    rcases he : s.scenes with _ | ⟨e, rest⟩
    · exact absurd he hs
    · simp only [fitAllOp, he]
      exact ⟨le_max_right _ _,
        max_le (le_trans (min_le_right _ _) (le_refl _)) (by norm_num [MIN_ZOOM, MAX_ZOOM])⟩
  · intro s
    simp only [pointerUpOp]
    by_cases hd : s.dragging.isSome = true <;> simp [hd] <;> split <;> rfl

/-- Witness for C7: `_setZoom` with target 0 yields exactly `MIN_ZOOM`. -/
theorem zoom_clamp_invariant_witness :
    (setZoomOp sampleState 0 0 0).zoom = MIN_ZOOM :=
  zoom_clamp_invariant.2.1 sampleState 0 0 0 (by norm_num [MIN_ZOOM])

/-- C1 (amended): `onLayoutChange()` fires exactly once after `_setZoom`
(zoom commit) and once after a pointer-up that ends a drag; it does not
fire on a pointer-up with no active drag, and — contrary to the claim —
`fitAll` fires no callback at all (it only re-renders). -/
theorem layout_change_callback_policy :
    (∀ (s : CanvasState) (nz cx cy : ℚ),
        (setZoomOp s nz cx cy).layoutChangeCount = s.layoutChangeCount + 1) ∧
    (∀ s : CanvasState, s.dragging.isSome = true →
        (pointerUpOp s).layoutChangeCount = s.layoutChangeCount + 1) ∧
    (∀ s : CanvasState, s.dragging = none →
        (pointerUpOp s).layoutChangeCount = s.layoutChangeCount) ∧
    (∀ s : CanvasState, (fitAllOp s).layoutChangeCount = s.layoutChangeCount) := by
  refine ⟨?_, ?_, ?_, ?_⟩
  · intro s nz cx cy; rfl
  · intro s hd
    simp only [pointerUpOp, hd, if_true]
    split <;> rfl
  · intro s hd
    simp only [pointerUpOp, hd, Option.isSome_none, Bool.false_eq_true, if_false]
    split <;> rfl
  · intro s
    rcases he : s.scenes with _ | ⟨e, rest⟩ <;> simp only [fitAllOp, he]

/-- Witness for C1: a drag-ending pointer-up fires the callback once. -/
theorem layout_change_callback_policy_witness :
    (pointerUpOp dragSampleState).layoutChangeCount
      = dragSampleState.layoutChangeCount + 1 :=
  layout_change_callback_policy.2.1 dragSampleState (by rfl)

/-- Counterexample for C1 as stated: `fitAll` on a concrete state commits
a layout mutation (the zoom changes) yet fires no `onLayoutChange()`
callback. -/
theorem fitAll_fires_no_callback_cex :
    (fitAllOp fitSample).zoom ≠ fitSample.zoom ∧
    (fitAllOp fitSample).layoutChangeCount = fitSample.layoutChangeCount := by
  constructor
  · norm_num [fitAllOp, fitSample, sampleState, scenesMinX, scenesMinY,
      scenesMaxX, scenesMaxY, MIN_ZOOM, MAX_ZOOM]
  · rfl

/-! ## Claims about the Merge Engine: offsets and bounding box -/

/-- C3: a wall record has both endpoints translated by (dx,dy); a
point-anchored record has its anchor translated; a drawing has only its
anchor translated and its anchor-relative point list unchanged — with the
spec's concrete instances at offset (100,200). -/
theorem embedded_offset_rules :
    (∀ (d : DocData) (dx dy x1 y1 x2 y2 : ℚ), d.c = some (x1, y1, x2, y2) →
        (wallOffsetFn d dx dy).c = some (x1 + dx, y1 + dy, x2 + dx, y2 + dy)) ∧
    (∀ (d : DocData) (dx dy x0 y0 : ℚ), d.x = some x0 → d.y = some y0 →
        (xyOffsetFn d dx dy).x = some (x0 + dx) ∧ (xyOffsetFn d dx dy).y = some (y0 + dy)) ∧
    (∀ (d : DocData) (dx dy : ℚ),
        (drawingOffsetFn d dx dy).x = some (d.x.getD 0 + dx) ∧
        (drawingOffsetFn d dx dy).y = some (d.y.getD 0 + dy) ∧
        (drawingOffsetFn d dx dy).shapePoints = d.shapePoints) ∧
    (wallOffsetFn sampleWallDoc 100 200).c = some (110, 210, 150, 210) ∧
    ((xyOffsetFn sampleAnchorDoc 100 200).x = some 105 ∧
     (xyOffsetFn sampleAnchorDoc 100 200).y = some 205) ∧
    ((drawingOffsetFn sampleDrawingDoc 100 200).x = some 105 ∧
     (drawingOffsetFn sampleDrawingDoc 100 200).y = some 205 ∧
     (drawingOffsetFn sampleDrawingDoc 100 200).shapePoints = some [0, 0, 10, 0, 10, 10]) := by
  refine ⟨?_, ?_, ?_, ?_, ?_, ?_⟩
  · intro d dx dy x1 y1 x2 y2 h
    simp [wallOffsetFn, h]
  · intro d dx dy x0 y0 hx hy
    simp [xyOffsetFn, hx, hy]
  · intro d dx dy
    refine ⟨?_, ?_, ?_⟩ <;>
      (simp only [drawingOffsetFn, xyOffsetFn]
       rcases hp : d.shapePoints with _ | pts <;>
         simp [hp, List.enum_map_snd])
  · norm_num [wallOffsetFn, sampleWallDoc]
  · norm_num [xyOffsetFn, sampleAnchorDoc]
  · norm_num [drawingOffsetFn, xyOffsetFn, sampleDrawingDoc, List.enum_map_snd]

/-- Witness for C3: the wall conjunct applied to the sample wall. -/
theorem embedded_offset_rules_witness :
    (wallOffsetFn sampleWallDoc 100 200).c = some (10 + 100, 10 + 200, 50 + 100, 10 + 200) :=
  embedded_offset_rules.1 sampleWallDoc 100 200 10 10 50 10 (by rfl)

/-- C4: for every non-empty layout list, bounding-box normalization yields
entries with minimum x = 0 and minimum y = 0 (all coordinates nonnegative
and both minima attained), and `totalWidth`/`totalHeight` equal the
pre-normalization spans `max(x+w) − min(x)` and `max(y+h) − min(y)`
exactly. -/
theorem bounding_box_normalization (layouts : List Layout) (h : layouts ≠ []) :
    (∀ e ∈ (computeBoundingBox layouts).normalisedLayouts, 0 ≤ e.x ∧ 0 ≤ e.y) ∧
    (∃ e ∈ (computeBoundingBox layouts).normalisedLayouts, e.x = 0) ∧
    (∃ e ∈ (computeBoundingBox layouts).normalisedLayouts, e.y = 0) ∧
    (computeBoundingBox layouts).totalWidth
      = listMax (layouts.map (fun l => l.x + l.width)) - listMin (layouts.map (fun l => l.x)) ∧
    (computeBoundingBox layouts).totalHeight
      = listMax (layouts.map (fun l => l.y + l.height)) - listMin (layouts.map (fun l => l.y)) := by
  refine ⟨?_, ?_, ?_, rfl, rfl⟩
  · intro e he
    simp only [computeBoundingBox, List.mem_map] at he
    obtain ⟨l, hl, rfl⟩ := he
    constructor
    · exact sub_nonneg.2 (listMin_le (List.mem_map_of_mem (fun l => l.x) hl))
    · exact sub_nonneg.2 (listMin_le (List.mem_map_of_mem (fun l => l.y) hl))
  · have hne : layouts.map (fun l => l.x) ≠ [] := by
      simpa [List.map_eq_nil_iff] using h
    obtain ⟨l, hl, hx⟩ := List.mem_map.1 (listMin_mem hne)
    refine ⟨_, List.mem_map_of_mem _ hl, ?_⟩
    simp [hx]
  · have hne : layouts.map (fun l => l.y) ≠ [] := by
      simpa [List.map_eq_nil_iff] using h
    obtain ⟨l, hl, hy⟩ := List.mem_map.1 (listMin_mem hne)
    refine ⟨_, List.mem_map_of_mem _ hl, ?_⟩
    simp [hy]

/-- Witness for C4: the minimum x of the normalized sample layout is
attained at 0. -/
theorem bounding_box_normalization_witness :
    ∃ e ∈ (computeBoundingBox sampleLayouts).normalisedLayouts, e.x = 0 :=
  (bounding_box_normalization sampleLayouts (by decide)).2.1

/-- C10: a merge, successful or failed, leaves every source scene in the
world exactly as it was: every offset function and provenance tag is
applied to the plain-object copy produced by `toObject()` (with `_id`
stripped), never to the source documents. -/
theorem merge_preserves_source_scenes (world : List (String × SceneDoc))
    (sceneLayouts : List Layout) (optName : Option String)
    (createOk : String → Bool) (freshId : String) (k : String)
    (h : (world.lookup k).isSome = true) :
    ((mergeScenes world sceneLayouts optName createOk freshId).2).lookup k
      = world.lookup k := by
  simp only [mergeScenes]
  split
  · rfl
  · split
    · exact lookup_append_of_isSome world _ k h
    · exact lookup_append_of_isSome world _ k h

/-- Witness for C10: merging the sample world (with the Wall batch
failing) leaves scene "a" untouched. -/
theorem merge_preserves_source_scenes_witness :
    ((mergeScenes sampleWorld sampleLayouts none wallFailOracle "m").2).lookup "a"
      = sampleWorld.lookup "a" :=
  merge_preserves_source_scenes sampleWorld sampleLayouts none wallFailOracle "m" "a"
    (by rfl)

/-- C8: in the Snap Engine, for each enabled axis, an edge-alignment case
matches exactly when the absolute distance between the two edges is
strictly below `SNAP_THRESHOLD / zoom` (the per-candidate update is the
qualification test on the four edge pairs), and later matching candidates
in iteration order overwrite earlier ones: the last rectangle in set
order with a qualifying edge determines the corrected coordinate of that
axis (its own last matching case giving the value). -/
theorem snap_threshold_last_match_wins :
    (∀ (threshold dLeft dRight dw : ℚ) (other : SceneEntry) (acc : SnapAcc),
        (snapStepX threshold dLeft dRight dw other acc).sx =
          if qualifiesX threshold dLeft dRight other
          then xSnapValue threshold dLeft dRight dw other
          else acc.sx) ∧
    (∀ (threshold dTop dBottom dh : ℚ) (other : SceneEntry) (acc : SnapAcc),
        (snapStepY threshold dTop dBottom dh other acc).sy =
          if qualifiesY threshold dTop dBottom other
          then ySnapValue threshold dTop dBottom dh other
          else acc.sy) ∧
    (∀ (s : CanvasState) (dragIndex : ℕ) (newX newY : ℚ)
        (l1 l2 : List (ℕ × SceneEntry)) (i : ℕ) (r : SceneEntry),
        s.snapX = true →
        s.scenes.enum = l1 ++ (i, r) :: l2 →
        i ≠ dragIndex →
        qualifiesX (snapThr s) newX (newX + dragWidth s dragIndex) r →
        (∀ q ∈ l2, q.1 ≠ dragIndex →
          ¬ qualifiesX (snapThr s) newX (newX + dragWidth s dragIndex) q.2) →
        (computeSnap s dragIndex newX newY false).sx =
          xSnapValue (snapThr s) newX (newX + dragWidth s dragIndex)
            (dragWidth s dragIndex) r) ∧
    (∀ (s : CanvasState) (dragIndex : ℕ) (newX newY : ℚ)
        (l1 l2 : List (ℕ × SceneEntry)) (i : ℕ) (r : SceneEntry),
        s.snapY = true →
        s.scenes.enum = l1 ++ (i, r) :: l2 →
        i ≠ dragIndex →
        qualifiesY (snapThr s) newY (newY + dragHeight s dragIndex) r →
        (∀ q ∈ l2, q.1 ≠ dragIndex →
          ¬ qualifiesY (snapThr s) newY (newY + dragHeight s dragIndex) q.2) →
        (computeSnap s dragIndex newX newY false).sy =
          ySnapValue (snapThr s) newY (newY + dragHeight s dragIndex)
            (dragHeight s dragIndex) r) :=
  ⟨snapStepX_sx, snapStepY_sy,
   fun s dI nX nY l1 l2 i r h1 h2 h3 h4 h5 =>
     computeSnap_lastX_aux s dI nX nY l1 l2 i r h1 h2 h3 h4 h5,
   fun s dI nX nY l1 l2 i r h1 h2 h3 h4 h5 =>
     computeSnap_lastY_aux s dI nX nY l1 l2 i r h1 h2 h3 h4 h5⟩

/-- Witness for C8: with two candidates, the later one (within threshold
but not exact) determines the corrected X coordinate. -/
theorem snap_threshold_last_match_wins_witness :
    (computeSnap snapState3 0 100 0 false).sx =
      xSnapValue (snapThr snapState3) 100 (100 + dragWidth snapState3 0)
        (dragWidth snapState3 0) snapThird := by
  apply snap_threshold_last_match_wins.2.2.1 snapState3 0 100 0
      [(0, snapMover), (1, snapNeighbor)] [] 2 snapThird
  · rfl
  · rfl
  · decide
  · have hdw : dragWidth snapState3 0 = 50 := rfl
    have hthr : snapThr snapState3 = 12 := by
      norm_num [snapThr, snapState3, sampleState, SNAP_THRESHOLD]
    rw [hdw, hthr]
    refine Or.inr (Or.inl ?_)
    rw [abs_sub_lt_iff]
    constructor <;> norm_num [snapThird]
  · intro q hq
    simp at hq

/-- C9 (amended): if the proposed position is exactly edge-aligned with a
static rectangle in any of the eight pairings (X axis: left→other-right,
right→other-left, left→left, right→right; Y axis: top→other-bottom,
bottom→other-top, top→top, bottom→bottom, with that axis's snapping
enabled), and every matching candidate case corrects the coordinate to
the proposed value itself (in particular when the exact alignment is the
only match on its axis), then the Snap Engine returns the position
unchanged on both axes and reports the guide at the aligned edge.
Without the side condition a later candidate within threshold overwrites
the exact alignment (see the counterexample). -/
theorem snap_aligned_idempotent_when_sole_match
    (s : CanvasState) (dragIndex : ℕ) (newX newY : ℚ) (i : ℕ) (r : SceneEntry)
    (hz : 0 < s.zoom)
    (hmem : (i, r) ∈ s.scenes.enum)
    (hi : i ≠ dragIndex)
    (hXall : ∀ q ∈ s.scenes.enum, q.1 ≠ dragIndex →
        (|newX - (q.2.x + q.2.width)| < snapThr s → q.2.x + q.2.width = newX) ∧
        (|newX + dragWidth s dragIndex - q.2.x| < snapThr s →
          q.2.x - dragWidth s dragIndex = newX) ∧
        (|newX - q.2.x| < snapThr s → q.2.x = newX) ∧
        (|newX + dragWidth s dragIndex - (q.2.x + q.2.width)| < snapThr s →
          q.2.x + q.2.width - dragWidth s dragIndex = newX))
    (hYall : ∀ q ∈ s.scenes.enum, q.1 ≠ dragIndex →
        (|newY - (q.2.y + q.2.height)| < snapThr s → q.2.y + q.2.height = newY) ∧
        (|newY + dragHeight s dragIndex - q.2.y| < snapThr s →
          q.2.y - dragHeight s dragIndex = newY) ∧
        (|newY - q.2.y| < snapThr s → q.2.y = newY) ∧
        (|newY + dragHeight s dragIndex - (q.2.y + q.2.height)| < snapThr s →
          q.2.y + q.2.height - dragHeight s dragIndex = newY)) :
    (computeSnap s dragIndex newX newY false).sx = newX ∧
    (computeSnap s dragIndex newX newY false).sy = newY ∧
    (s.snapX = true → newX = r.x + r.width →
      (⟨Axis.x, r.x + r.width⟩ : SnapGuide) ∈ (computeSnap s dragIndex newX newY false).guides) ∧
    (s.snapX = true → newX + dragWidth s dragIndex = r.x →
      (⟨Axis.x, r.x⟩ : SnapGuide) ∈ (computeSnap s dragIndex newX newY false).guides) ∧
    (s.snapX = true → newX = r.x →
      (⟨Axis.x, r.x⟩ : SnapGuide) ∈ (computeSnap s dragIndex newX newY false).guides) ∧
    (s.snapX = true → newX + dragWidth s dragIndex = r.x + r.width →
      (⟨Axis.x, r.x + r.width⟩ : SnapGuide) ∈ (computeSnap s dragIndex newX newY false).guides) ∧
    (s.snapY = true → newY = r.y + r.height →
      (⟨Axis.y, r.y + r.height⟩ : SnapGuide) ∈ (computeSnap s dragIndex newX newY false).guides) ∧
    (s.snapY = true → newY + dragHeight s dragIndex = r.y →
      (⟨Axis.y, r.y⟩ : SnapGuide) ∈ (computeSnap s dragIndex newX newY false).guides) ∧
    (s.snapY = true → newY = r.y →
      (⟨Axis.y, r.y⟩ : SnapGuide) ∈ (computeSnap s dragIndex newX newY false).guides) ∧
    (s.snapY = true → newY + dragHeight s dragIndex = r.y + r.height →
      (⟨Axis.y, r.y + r.height⟩ : SnapGuide) ∈ (computeSnap s dragIndex newX newY false).guides) := by
  obtain ⟨l1, l2, henum⟩ := List.append_of_mem hmem
  have hthr_pos : 0 < snapThr s := div_pos (by norm_num [SNAP_THRESHOLD]) hz
  have hthr_pos' : 0 < SNAP_THRESHOLD / s.zoom := hthr_pos
  refine ⟨?_, ?_, ?_, ?_, ?_, ?_, ?_, ?_, ?_, ?_⟩
  · by_cases hg : (false || (!s.snapX && !s.snapY)) = true
    · simp only [computeSnap]
      rw [if_pos hg]
    · simp only [computeSnap]
      rw [if_neg hg]
      apply foldl_iter_sx_inv
      · rfl
      · intro q hq hne
        simpa [snapThr, dragWidth] using hXall q hq hne
  · by_cases hg : (false || (!s.snapX && !s.snapY)) = true
    · simp only [computeSnap]
      rw [if_pos hg]
    · simp only [computeSnap]
      rw [if_neg hg]
      apply foldl_iter_sy_inv
      · rfl
      · intro q hq hne
        simpa [snapThr, dragHeight] using hYall q hq hne
  · intro hsx hal
    simp only [computeSnap, hsx]
    rw [if_neg (by simp)]
    rw [henum, List.foldl_append, List.foldl_cons]
    apply foldl_iter_guides_mem
    apply computeSnapIter_guideX_of_case
    · exact hi
    · exact Or.inl ⟨by rw [hal, sub_self, abs_zero]; exact hthr_pos', rfl⟩
  · intro hsx hal
    have hal' : newX + (s.scenes.getD dragIndex default).width = r.x := hal
    simp only [computeSnap, hsx]
    rw [if_neg (by simp)]
    rw [henum, List.foldl_append, List.foldl_cons]
    apply foldl_iter_guides_mem
    apply computeSnapIter_guideX_of_case
    · exact hi
    · exact Or.inr (Or.inl ⟨by rw [hal', sub_self, abs_zero]; exact hthr_pos', rfl⟩)
  · intro hsx hal
    simp only [computeSnap, hsx]
    rw [if_neg (by simp)]
    rw [henum, List.foldl_append, List.foldl_cons]
    apply foldl_iter_guides_mem
    apply computeSnapIter_guideX_of_case
    · exact hi
    · exact Or.inr (Or.inr (Or.inl ⟨by rw [hal, sub_self, abs_zero]; exact hthr_pos', rfl⟩))
  · intro hsx hal
    have hal' : newX + (s.scenes.getD dragIndex default).width = r.x + r.width := hal
    simp only [computeSnap, hsx]
    rw [if_neg (by simp)]
    rw [henum, List.foldl_append, List.foldl_cons]
    apply foldl_iter_guides_mem
    apply computeSnapIter_guideX_of_case
    · exact hi
    · exact Or.inr (Or.inr (Or.inr ⟨by rw [hal', sub_self, abs_zero]; exact hthr_pos', rfl⟩))
  · intro hsy hal
    simp only [computeSnap, hsy]
    rw [if_neg (by simp)]
    rw [henum, List.foldl_append, List.foldl_cons]
    apply foldl_iter_guides_mem
    apply computeSnapIter_guideY_of_case
    · exact hi
    · exact Or.inl ⟨by rw [hal, sub_self, abs_zero]; exact hthr_pos', rfl⟩
  · intro hsy hal
    have hal' : newY + (s.scenes.getD dragIndex default).height = r.y := hal
    simp only [computeSnap, hsy]
    rw [if_neg (by simp)]
    rw [henum, List.foldl_append, List.foldl_cons]
    apply foldl_iter_guides_mem
    apply computeSnapIter_guideY_of_case
    · exact hi
    · exact Or.inr (Or.inl ⟨by rw [hal', sub_self, abs_zero]; exact hthr_pos', rfl⟩)
  · intro hsy hal
    simp only [computeSnap, hsy]
    rw [if_neg (by simp)]
    rw [henum, List.foldl_append, List.foldl_cons]
    apply foldl_iter_guides_mem
    apply computeSnapIter_guideY_of_case
    · exact hi
    · exact Or.inr (Or.inr (Or.inl ⟨by rw [hal, sub_self, abs_zero]; exact hthr_pos', rfl⟩))
  · intro hsy hal
    have hal' : newY + (s.scenes.getD dragIndex default).height = r.y + r.height := hal
    simp only [computeSnap, hsy]
    rw [if_neg (by simp)]
    rw [henum, List.foldl_append, List.foldl_cons]
    apply foldl_iter_guides_mem
    apply computeSnapIter_guideY_of_case
    · exact hi
    · exact Or.inr (Or.inr (Or.inr ⟨by rw [hal', sub_self, abs_zero]; exact hthr_pos', rfl⟩))

/-- Witness for C9: one exactly-aligned neighbour and no other candidate;
position returned unchanged, guide reported. -/
theorem snap_aligned_idempotent_witness :
    (computeSnap snapState2 0 100 0 false).sx = 100 ∧
    (computeSnap snapState2 0 100 0 false).sy = 0 ∧
    (⟨Axis.x, snapNeighbor.x + snapNeighbor.width⟩ : SnapGuide) ∈
      (computeSnap snapState2 0 100 0 false).guides := by
  have hdw : dragWidth snapState2 0 = 50 := rfl
  have hdh : dragHeight snapState2 0 = 50 := rfl
  have hthr : snapThr snapState2 = 12 := by
    norm_num [snapThr, snapState2, sampleState, SNAP_THRESHOLD]
  have h := snap_aligned_idempotent_when_sole_match snapState2 0 100 0 1 snapNeighbor
    (by norm_num [snapState2, sampleState])
    (List.mem_cons_of_mem _ (List.mem_cons_self _ _))
    (by decide)
    (by intro q hq hne
        rw [hdw, hthr]
        fin_cases hq
        · exact absurd rfl hne
        · refine ⟨?_, ?_, ?_, ?_⟩ <;> intro hcase <;>
            norm_num [snapNeighbor, abs_sub_lt_iff] at hcase ⊢)
    (by intro q hq hne
        rw [hdh, hthr]
        fin_cases hq
        · exact absurd rfl hne
        · refine ⟨?_, ?_, ?_, ?_⟩ <;> intro hcase <;>
            norm_num [snapNeighbor, abs_sub_lt_iff] at hcase ⊢)
  exact ⟨h.1, h.2.1, h.2.2.1 rfl (by norm_num [snapNeighbor])⟩

/-- Counterexample for C9 as stated: the mover's left edge exactly matches
`snapNeighbor`'s right edge at x = 100, yet the Snap Engine moves the
position, because the later candidate `snapThird` also qualifies within
threshold and overwrites the correction. -/
theorem snap_aligned_moved_cex :
    (100 : ℚ) = snapNeighbor.x + snapNeighbor.width ∧
    (computeSnap snapState3 0 100 0 false).sx ≠ 100 := by
  have hdw : dragWidth snapState3 0 = 50 := rfl
  have hthr : snapThr snapState3 = 12 := by
    norm_num [snapThr, snapState3, sampleState, SNAP_THRESHOLD]
  constructor
  · norm_num [snapNeighbor]
  · have h := computeSnap_lastX_aux snapState3 0 100 0
      [(0, snapMover), (1, snapNeighbor)] [] 2 snapThird rfl rfl (by decide)
      (by rw [hdw, hthr]
          refine Or.inr (Or.inl ?_)
          rw [abs_sub_lt_iff]
          constructor <;> norm_num [snapThird])
      (by intro q hq; simp at hq)
    rw [h, hdw, hthr]
    norm_num [xSnapValue, snapThird, abs_sub_lt_iff]

/-! ## Claim C2: partial persistence failure -/

/-- C2 (amended): when every scene resolves and the background-tile batch
does not fail, the merge returns a result (never throws for a per-type
persistence failure): its `warnings` field is always present and carries
exactly the grid-compatibility warnings — a failing embedded-type batch
is *not* added to `warnings` but reported as a UI notification naming the
type — and every non-empty batch is still attempted, the committed ones
being exactly those whose type persists successfully. -/
theorem merge_partial_failure_reporting (world : List (String × SceneDoc))
    (sceneLayouts : List Layout) (optName : Option String)
    (createOk : String → Bool) (freshId : String)
    (hres : missingLayouts world sceneLayouts = [])
    (htile : allBackgroundTilesOf (resolvedScenes world sceneLayouts)
        (computeBoundingBox sceneLayouts).normalisedLayouts = [] ∨ createOk "Tile" = true) :
    ∃ out, (mergeScenes world sceneLayouts optName createOk freshId).1 = Except.ok out ∧
      out.warnings = validateGridCompatibility (resolvedScenes world sceneLayouts) ∧
      out.committed = (allEmbeddedOf (resolvedScenes world sceneLayouts)
          (computeBoundingBox sceneLayouts).normalisedLayouts).filter (keptBatch createOk) ∧
      out.notifications = ((allEmbeddedOf (resolvedScenes world sceneLayouts)
          (computeBoundingBox sceneLayouts).normalisedLayouts).filter (failedBatch createOk)).map
            (fun p => persistFailureMsg p.1) := by
  have hcond : ¬(allBackgroundTilesOf (resolvedScenes world sceneLayouts)
      (computeBoundingBox sceneLayouts).normalisedLayouts ≠ [] ∧ createOk "Tile" = false) := by
    rcases htile with h | h
    · intro hc; exact hc.1 h
    · intro hc; rw [h] at hc; exact absurd hc.2 (by simp)
  simp only [mergeScenes, hres]
  rw [if_neg (by simp)]
  rw [if_neg hcond]
  refine ⟨_, rfl, rfl, ?_, ?_⟩
  · rw [persistLoop_eq]
  · rw [persistLoop_eq]

/-- Witness for C2: merging the sample world with the Wall batch failing
still returns a result. -/
theorem merge_partial_failure_reporting_witness :
    ∃ out, (mergeScenes sampleWorld sampleLayouts none wallFailOracle "m").1 = Except.ok out ∧
      out.warnings = validateGridCompatibility (resolvedScenes sampleWorld sampleLayouts) ∧
      out.committed = (allEmbeddedOf (resolvedScenes sampleWorld sampleLayouts)
          (computeBoundingBox sampleLayouts).normalisedLayouts).filter (keptBatch wallFailOracle) ∧
      out.notifications = ((allEmbeddedOf (resolvedScenes sampleWorld sampleLayouts)
          (computeBoundingBox sampleLayouts).normalisedLayouts).filter (failedBatch wallFailOracle)).map
            (fun p => persistFailureMsg p.1) :=
  merge_partial_failure_reporting sampleWorld sampleLayouts none wallFailOracle "m"
    (by rfl) (Or.inl (by rfl))

/-- Counterexample for C2 as stated: the Wall batch fails to persist, yet
the returned `warnings` array is empty — the failure is reported only as
a UI notification, never in `warnings`. -/
theorem persist_failure_not_in_warnings_cex :
    ∃ out, (mergeScenes sampleWorld sampleLayouts none wallFailOracle "m").1 = Except.ok out ∧
      out.warnings = [] ∧
      out.notifications = [persistFailureMsg "Wall"] ∧
      out.committed = [] := by
  refine ⟨_, rfl, ?_, ?_, ?_⟩ <;> rfl

end SceneStitcher
